import Mathlib

/-! Verification of the win32cpp sources: a shallow embedding of

* `cpp11msgbox/msgbox.h`   (enum `winapi::MB`, its `operator|`, the two `MsgBox` overloads),
* `winapi/module.h`        (enum `winapi::LoadingFlags`, its `operator|`, class `Module`),
* `hacking-handles/hacking_handles.cpp` (class `Module` as a handle overlay),
* `using-asm-jmp/using-asm-jmp.cpp`     (the naked `jmp` thunks),
* `using-asm-jmp_test/main.cpp`         (the test program),
* `cpp11msgbox/msgbox.cpp`              (the `EXPORT_ALIAS` table).

Machine integers are natural numbers reduced modulo `2 ^ 32`.  The operating
system (the loader entry points `LoadLibraryA`, `LoadLibraryExA`, `FreeLibrary`,
`GetProcAddress`) is not part of the repository and is a parameter everywhere.
-/

/-! ## `std::uint32_t` -/

/-- Number of values of a `std::uint32_t`. -/
def UINT32_SIZE : Nat := 4294967296

/-- Bitwise or of two `std::uint32_t` values, as the built-in `|` computes it. -/
def uint32_or (a b : Nat) : Nat := (a ||| b) % UINT32_SIZE

namespace winapi

/-! ## msgbox.h : `enum class MB : std::uint32_t` -/

/-- A value of `enum class MB : std::uint32_t`: any 32-bit pattern of the
underlying type, not only a named enumerator. -/
structure MB where
  val : Nat
  isLt : val < UINT32_SIZE
deriving DecidableEq

namespace MB

def OK : MB := ⟨0x00000000, by decide⟩
def OKCANCEL : MB := ⟨0x00000001, by decide⟩
def ABORTRETRYIGNORE : MB := ⟨0x00000002, by decide⟩
def YESNOCANCEL : MB := ⟨0x00000003, by decide⟩
def YESNO : MB := ⟨0x00000004, by decide⟩
def RETRYCANCEL : MB := ⟨0x00000005, by decide⟩
def ICONHAND : MB := ⟨0x00000010, by decide⟩
def ICONQUESTION : MB := ⟨0x00000020, by decide⟩
def ICONEXCLAMATION : MB := ⟨0x00000030, by decide⟩
def ICONASTERISK : MB := ⟨0x00000040, by decide⟩

/-- The named enumerators of `MB`, in declaration order. -/
def enumerators : List MB :=
  [OK, OKCANCEL, ABORTRETRYIGNORE, YESNOCANCEL, YESNO, RETRYCANCEL,
   ICONHAND, ICONQUESTION, ICONEXCLAMATION, ICONASTERISK]

/-- The conversion `static_cast<std::uint32_t>(l)`. -/
def toUInt32 (l : MB) : Nat := l.val

/-- The conversion `static_cast<MB>(n)` of a `std::uint32_t`. -/
def ofUInt32 (n : Nat) : MB := ⟨n % UINT32_SIZE, Nat.mod_lt _ (by decide)⟩

/-- The operator `inline MB operator|(MB l, MB r)`. -/
def or (l r : MB) : MB := ofUInt32 (uint32_or (toUInt32 l) (toUInt32 r))

end MB

/-! ## module.h : `enum class LoadingFlags : std::uint32_t` -/

/-- A value of `enum class LoadingFlags : std::uint32_t`: any 32-bit pattern. -/
structure LoadingFlags where
  val : Nat
  isLt : val < UINT32_SIZE
deriving DecidableEq

namespace LoadingFlags

def DONT_RESOLVE_DLL_REFERENCES : LoadingFlags := ⟨0x00000001, by decide⟩
def LOAD_LIBRARY_AS_DATAFILE : LoadingFlags := ⟨0x00000002, by decide⟩
def LOAD_WITH_ALTERED_SEARCH_PATH : LoadingFlags := ⟨0x00000008, by decide⟩
def LOAD_IGNORE_CODE_AUTHZ_LEVEL : LoadingFlags := ⟨0x00000010, by decide⟩
def LOAD_LIBRARY_AS_IMAGE_RESOURCE : LoadingFlags := ⟨0x00000020, by decide⟩
def LOAD_LIBRARY_AS_DATAFILE_EXCLUSIVE : LoadingFlags := ⟨0x00000040, by decide⟩
def LOAD_LIBRARY_REQUIRE_SIGNED_TARGET : LoadingFlags := ⟨0x00000080, by decide⟩
def LOAD_LIBRARY_SEARCH_DLL_LOAD_DIR : LoadingFlags := ⟨0x00000100, by decide⟩
def LOAD_LIBRARY_SEARCH_APPLICATION_DIR : LoadingFlags := ⟨0x00000200, by decide⟩
def LOAD_LIBRARY_SEARCH_USER_DIRS : LoadingFlags := ⟨0x00000400, by decide⟩
def LOAD_LIBRARY_SEARCH_SYSTEM32 : LoadingFlags := ⟨0x00000800, by decide⟩
def LOAD_LIBRARY_SEARCH_DEFAULT_DIRS : LoadingFlags := ⟨0x00001000, by decide⟩

/-- The named enumerators of `LoadingFlags`, in declaration order. -/
def enumerators : List LoadingFlags :=
  [DONT_RESOLVE_DLL_REFERENCES, LOAD_LIBRARY_AS_DATAFILE, LOAD_WITH_ALTERED_SEARCH_PATH,
   LOAD_IGNORE_CODE_AUTHZ_LEVEL, LOAD_LIBRARY_AS_IMAGE_RESOURCE,
   LOAD_LIBRARY_AS_DATAFILE_EXCLUSIVE, LOAD_LIBRARY_REQUIRE_SIGNED_TARGET,
   LOAD_LIBRARY_SEARCH_DLL_LOAD_DIR, LOAD_LIBRARY_SEARCH_APPLICATION_DIR,
   LOAD_LIBRARY_SEARCH_USER_DIRS, LOAD_LIBRARY_SEARCH_SYSTEM32,
   LOAD_LIBRARY_SEARCH_DEFAULT_DIRS]

/-- The conversion `static_cast<std::uint32_t>(left)`. -/
def toUInt32 (l : LoadingFlags) : Nat := l.val

/-- The conversion `static_cast<LoadingFlags>(n)` of a `std::uint32_t`. -/
def ofUInt32 (n : Nat) : LoadingFlags := ⟨n % UINT32_SIZE, Nat.mod_lt _ (by decide)⟩

/-- The operator `inline LoadingFlags operator|(LoadingFlags left, LoadingFlags right)`. -/
def or (left right : LoadingFlags) : LoadingFlags :=
  ofUInt32 (uint32_or (toUInt32 left) (toUInt32 right))

end LoadingFlags

/-- A value has exactly one bit set among the 32 bits of a `std::uint32_t`. -/
def singleBit (n : Nat) : Prop := ∃ k, k < 32 ∧ n = 2 ^ k

instance (n : Nat) : Decidable (singleBit n) := by
  unfold singleBit; infer_instance

end winapi

/-! ## hacking_handles.cpp : class `Module` as an overlay of `HMODULE` -/

namespace hacking_handles

/-- The Win32 type `HMODULE`: a pointer-sized value used only as a bit pattern. -/
abbrev HMODULE := Nat

/-- The Win32 type `BOOL` (a C `int`). -/
abbrev BOOL := Int

/-- The Win32 constant `TRUE`. -/
def TRUE : BOOL := 1

/-- The Win32 constant `FALSE`. -/
def FALSE : BOOL := 0

/-- The loader entry points hacking_handles.cpp calls.  They belong to the
operating system; `σ` is the loader state they read and update. -/
structure Win32 (σ : Type) where
  LoadLibraryA : String → σ → HMODULE × σ
  FreeLibrary : HMODULE → σ → BOOL × σ
  GetProcAddress : HMODULE → String → σ → Nat × σ

/-- A `Module *`: the class is empty and never dereferenced, so the pointer is
its bit pattern. -/
structure Module where
  addr : Nat
deriving DecidableEq

namespace Module

/-- The null `Module *`. -/
def null : Module := ⟨0⟩

/-- The cast `reinterpret_cast<Module*>(h)`: the bit pattern is kept. -/
def ofHMODULE (h : HMODULE) : Module := ⟨h⟩

/-- The member `operator HMODULE()`: `reinterpret_cast<HMODULE>(this)`. -/
def toHMODULE (this : Module) : HMODULE := this.addr

/-- The member `static Module * Load(const char * fileName)`. -/
def Load {σ : Type} (os : Win32 σ) (fileName : String) (s : σ) : Module × σ :=
  let r := os.LoadLibraryA fileName s
  (ofHMODULE r.1, r.2)

/-- The member `bool Free()`: `::FreeLibrary(reinterpret_cast<HMODULE>(this)) == TRUE`. -/
def Free {σ : Type} (os : Win32 σ) (this : Module) (s : σ) : Bool × σ :=
  let r := os.FreeLibrary (toHMODULE this) s
  (decide (r.1 = TRUE), r.2)

/-- The member template `T GetProcAddress(const char * procName)`; the cast to the
function-pointer type `T` keeps the address. -/
def GetProcAddress {σ : Type} (os : Win32 σ) (this : Module) (procName : String) (s : σ) :
    Nat × σ :=
  os.GetProcAddress (toHMODULE this) procName s

end Module

/-- A loader without state whose `FreeLibrary` always answers `r` and whose
`LoadLibraryA` always answers `h`. -/
def constWin32 (h : HMODULE) (r : BOOL) : Win32 Unit where
  LoadLibraryA := fun _ s => (h, s)
  FreeLibrary := fun _ s => (r, s)
  GetProcAddress := fun _ _ s => (0, s)

end hacking_handles

/-! ## using-asm-jmp.cpp : the naked thunks on 32-bit x86

The file compiles for 32-bit x86 only (`#error` under `_WIN64`).  A thunk is a
naked function whose whole body is one `jmp` through a pointer slot, so the model
works at the level of the `__stdcall` convention: arguments are 32-bit words on
the stack above the return address, the callee pops them, and the result comes
back in `eax`.  A `const char *` is the 32-bit address of the string.
-/

namespace winapi

/-- Number of values of a 32-bit register. -/
def WORD_SIZE : Nat := 4294967296

/-- The Win32 entry points and the code reachable through resolved addresses.
They belong to the operating system; `σ` is the loader state.  Every argument
and every result is a 32-bit word; a `const char *` argument is the address of
the string.  Nothing is assumed of their behaviour here. -/
structure Win32 (σ : Type) where
  LoadLibraryA : Nat → σ → Nat × σ
  LoadLibraryExA : Nat → Nat → Nat → σ → Nat × σ
  FreeLibrary : Nat → σ → Nat × σ
  GetProcAddress : Nat → Nat → σ → Nat × σ
  /-- The four-argument `__stdcall` function found at a resolved address. -/
  procAt : Nat → Nat → Nat → Nat → Nat → σ → Nat × σ

/-- One call that reached the operating system, with its arguments and result. -/
inductive OsCall where
  | LoadLibraryA (lpLibFileName result : Nat)
  | LoadLibraryExA (lpLibFileName hFile dwFlags result : Nat)
  | FreeLibrary (hLibModule result : Nat)
  | GetProcAddress (hModule lpProcName result : Nat)
  | procAt (address a1 a2 a3 a4 result : Nat)
deriving DecidableEq

/-- The part of the machine the thunks touch: `eax`, the stack (top first) and
the loader state, together with the record of the calls that reached the
operating system. -/
structure Machine (σ : Type) where
  eax : Nat
  stack : List Nat
  os : σ
  calls : List OsCall

/-- A piece of code entered with the return address on top of the stack. -/
abbrev Routine (σ : Type) := Machine σ → Machine σ

/-- The stack word at `[esp + 4 * i]`. -/
def Machine.arg {σ : Type} (m : Machine σ) (i : Nat) : Nat := m.stack.getD i 0

/-- Return from a `__stdcall` function of `n` arguments (`ret 4 * n`): the result
is left in `eax`, the return address and the `n` argument words are popped. -/
def stdcallReturn {σ : Type} (n : Nat) (m : Machine σ) (r : Nat × σ) (c : OsCall) :
    Machine σ :=
  ⟨r.1 % WORD_SIZE, m.stack.drop (n + 1), r.2, m.calls ++ [c]⟩

namespace Win32

/-- The entry point `LoadLibraryA` as machine code. -/
def LoadLibraryA_entry {σ : Type} (w : Win32 σ) : Routine σ := fun m =>
  let r := w.LoadLibraryA (m.arg 1) m.os
  stdcallReturn 1 m r (OsCall.LoadLibraryA (m.arg 1) (r.1 % WORD_SIZE))

/-- The entry point `LoadLibraryExA` as machine code. -/
def LoadLibraryExA_entry {σ : Type} (w : Win32 σ) : Routine σ := fun m =>
  let r := w.LoadLibraryExA (m.arg 1) (m.arg 2) (m.arg 3) m.os
  stdcallReturn 3 m r (OsCall.LoadLibraryExA (m.arg 1) (m.arg 2) (m.arg 3) (r.1 % WORD_SIZE))

/-- The entry point `FreeLibrary` as machine code. -/
def FreeLibrary_entry {σ : Type} (w : Win32 σ) : Routine σ := fun m =>
  let r := w.FreeLibrary (m.arg 1) m.os
  stdcallReturn 1 m r (OsCall.FreeLibrary (m.arg 1) (r.1 % WORD_SIZE))

/-- The entry point `GetProcAddress` as machine code. -/
def GetProcAddress_entry {σ : Type} (w : Win32 σ) : Routine σ := fun m =>
  let r := w.GetProcAddress (m.arg 1) (m.arg 2) m.os
  stdcallReturn 2 m r (OsCall.GetProcAddress (m.arg 1) (m.arg 2) (r.1 % WORD_SIZE))

/-- The code at a resolved address, entered as a four-argument `__stdcall` function. -/
def procAt_entry {σ : Type} (w : Win32 σ) (address : Nat) : Routine σ := fun m =>
  let r := w.procAt address (m.arg 1) (m.arg 2) (m.arg 3) (m.arg 4) m.os
  stdcallReturn 4 m r
    (OsCall.procAt address (m.arg 1) (m.arg 2) (m.arg 3) (m.arg 4) (r.1 % WORD_SIZE))

end Win32

/-- The instruction `jmp [slot]`: control goes to the routine whose address the
slot holds; no register and no stack word is changed. -/
def jmp {σ : Type} (slot : Routine σ) : Routine σ := fun m => slot m

/-- The slot `static auto Win32GetProcAddress = &::GetProcAddress;`. -/
def Win32GetProcAddress {σ : Type} (w : Win32 σ) : Routine σ := w.GetProcAddress_entry

namespace Module

/-- The naked body of `Module::Load(const char *)`: `__asm jmp[LoadLibraryA]`. -/
def Load {σ : Type} (w : Win32 σ) : Routine σ := jmp w.LoadLibraryA_entry

/-- The naked body of `Module::Load(const char *, std::nullptr_t, LoadingFlags)`:
`__asm jmp[LoadLibraryExA]`. -/
def LoadEx {σ : Type} (w : Win32 σ) : Routine σ := jmp w.LoadLibraryExA_entry

/-- The naked body of `Module::Free()`: `__asm jmp[FreeLibrary]`. -/
def Free {σ : Type} (w : Win32 σ) : Routine σ := jmp w.FreeLibrary_entry

/-- The naked body of `Module::GetProcAddress(const char *)`:
`__asm jmp[Win32GetProcAddress]`. -/
def GetProcAddress {σ : Type} (w : Win32 σ) : Routine σ := jmp (Win32GetProcAddress w)

end Module

/-- The word a `call` instruction pushes as return address; no routine modelled
here reads it. -/
def RETURN_ADDRESS : Nat := 0

/-- A `__stdcall` call: the arguments are pushed right to left, so the first one
ends nearest the top, then `call` pushes the return address and enters the routine. -/
def call {σ : Type} (f : Routine σ) (args : List Nat) (m : Machine σ) : Machine σ :=
  f ⟨m.eax, RETURN_ADDRESS :: (args ++ m.stack), m.os, m.calls⟩

/-- How the caller reads a result of pointer type or of type `BOOL`: all of `eax`. -/
def resultWord {σ : Type} (m : Machine σ) : Nat := m.eax

/-- How the caller reads a result of type `bool`: the byte in `al`, the low byte
of `eax`, taken as it is.  The byte 0 is `false` and the byte 1 is `true`; the
thunk does nothing to bring another byte to one of the two. -/
def resultBool {σ : Type} (m : Machine σ) : Nat := m.eax % 256

/-! ### Call expressions of module.h, as a caller compiles them -/

/-- The expression `Module::Load(fileName)`. -/
def callLoad {σ : Type} (w : Win32 σ) (fileName : Nat) (m : Machine σ) : Nat × Machine σ :=
  let m1 := call (Module.Load w) [fileName] m
  (resultWord m1, m1)

/-- The expression `Module::Load(fileName, nullptr, flags)`; `nullptr` is passed as
a zero word and `flags` as its underlying `std::uint32_t`. -/
def callLoadEx {σ : Type} (w : Win32 σ) (fileName : Nat) (flags : LoadingFlags)
    (m : Machine σ) : Nat × Machine σ :=
  let m1 := call (Module.LoadEx w) [fileName, 0, flags.toUInt32] m
  (resultWord m1, m1)

/-- The expression `handle->Free()`; `this` is the first stack argument of a
`__stdcall` member function.  The result is the byte of the returned `bool`. -/
def callFree {σ : Type} (w : Win32 σ) (handle : Nat) (m : Machine σ) : Nat × Machine σ :=
  let m1 := call (Module.Free w) [handle] m
  (resultBool m1, m1)

/-- The expression `handle->GetProcAddress(procName)`. -/
def callGetProcAddress {σ : Type} (w : Win32 σ) (handle procName : Nat) (m : Machine σ) :
    Nat × Machine σ :=
  let m1 := call (Module.GetProcAddress w) [handle, procName] m
  (resultWord m1, m1)

/-! ### The same Win32 functions called directly -/

/-- The expression `::LoadLibraryA(fileName)`. -/
def directLoadLibraryA {σ : Type} (w : Win32 σ) (fileName : Nat) (m : Machine σ) :
    Nat × Machine σ :=
  let m1 := call w.LoadLibraryA_entry [fileName] m
  (resultWord m1, m1)

/-- The expression `::LoadLibraryExA(fileName, hFile, dwFlags)`. -/
def directLoadLibraryExA {σ : Type} (w : Win32 σ) (fileName hFile dwFlags : Nat)
    (m : Machine σ) : Nat × Machine σ :=
  let m1 := call w.LoadLibraryExA_entry [fileName, hFile, dwFlags] m
  (resultWord m1, m1)

/-- The expression `::FreeLibrary(handle)`, of type `BOOL`. -/
def directFreeLibrary {σ : Type} (w : Win32 σ) (handle : Nat) (m : Machine σ) :
    Nat × Machine σ :=
  let m1 := call w.FreeLibrary_entry [handle] m
  (resultWord m1, m1)

/-- The expression `::GetProcAddress(handle, procName)`. -/
def directGetProcAddress {σ : Type} (w : Win32 σ) (handle procName : Nat) (m : Machine σ) :
    Nat × Machine σ :=
  let m1 := call w.GetProcAddress_entry [handle, procName] m
  (resultWord m1, m1)

end winapi

/-! ## using-asm-jmp_test/main.cpp -/

namespace winapi

/-- Addresses of the string literals of main.cpp, one for each occurrence. -/
structure Literals where
  user32_dll_1 : Nat
  user32_dll_2 : Nat
  MessageBoxA_1 : Nat
  MessageBoxA_2 : Nat
  It_works : Nat
  Ok : Nat

/-- The two loads `lib1 = Module::Load(name1)` and
`lib2 = Module::Load(name2, nullptr, flags)`, in this order. -/
def loadBoth {σ : Type} (w : Win32 σ) (name1 name2 : Nat) (flags : LoadingFlags)
    (m : Machine σ) : (Nat × Nat) × Machine σ :=
  let r1 := callLoad w name1 m
  let r2 := callLoadEx w name2 flags r1.2
  ((r1.1, r2.1), r2.2)

/-- The two lookups `addr1 = lib1->GetProcAddress(proc1)` and
`addr2 = lib2->GetProcAddress(proc2)`, in this order. -/
def resolveBoth {σ : Type} (w : Win32 σ) (lib1 lib2 proc1 proc2 : Nat) (m : Machine σ) :
    (Nat × Nat) × Machine σ :=
  let a1 := callGetProcAddress w lib1 proc1 m
  let a2 := callGetProcAddress w lib2 proc2 a1.2
  ((a1.1, a2.1), a2.2)

/-- The function `main` of using-asm-jmp_test/main.cpp. -/
def main {σ : Type} (w : Win32 σ) (lit : Literals) (m : Machine σ) : Machine σ :=
  let l := loadBoth w lit.user32_dll_1 lit.user32_dll_2
    LoadingFlags.DONT_RESOLVE_DLL_REFERENCES m
  let lib1 := l.1.1
  let lib2 := l.1.2
  if lib1 ≠ 0 ∧ lib2 ≠ 0 then
    let a := resolveBoth w lib1 lib2 lit.MessageBoxA_1 lit.MessageBoxA_2 l.2
    let addr1 := a.1.1
    let addr2 := a.1.2
    let m3 :=
      if addr1 ≠ 0 ∧ addr1 = addr2 then
        call (w.procAt_entry addr1) [0, lit.It_works, lit.Ok, 0] a.2
      else a.2
    let f1 := callFree w lib1 m3
    let f2 := callFree w lib2 f1.2
    f2.2
  else l.2

/-- The non-null handles the loader returned, one entry for each successful load. -/
def loadedHandles : List OsCall → List Nat
  | [] => []
  | OsCall.LoadLibraryA _ r :: cs =>
      if r ≠ 0 then r :: loadedHandles cs else loadedHandles cs
  | OsCall.LoadLibraryExA _ _ _ r :: cs =>
      if r ≠ 0 then r :: loadedHandles cs else loadedHandles cs
  | _ :: cs => loadedHandles cs

/-- The handles passed to `FreeLibrary`, one entry for each call. -/
def freedHandles : List OsCall → List Nat
  | [] => []
  | OsCall.FreeLibrary h _ :: cs => h :: freedHandles cs
  | _ :: cs => freedHandles cs

/-- A machine at the entry of a program: empty stack, no call made yet. -/
def startMachine {σ : Type} (s : σ) : Machine σ := ⟨0, [], s, []⟩

/-- A loader without state that answers every request with a fixed word. -/
def constWin32 (load loadEx free proc : Nat) : Win32 Unit where
  LoadLibraryA := fun _ s => (load, s)
  LoadLibraryExA := fun _ _ _ s => (loadEx, s)
  FreeLibrary := fun _ s => (free, s)
  GetProcAddress := fun _ _ s => (proc, s)
  procAt := fun _ _ _ _ _ s => (1, s)

/-- Literal addresses used for concrete runs. -/
def someLiterals : Literals := ⟨0x402000, 0x40200c, 0x402018, 0x402024, 0x402030, 0x40203c⟩

/-- The strings of main.cpp at the addresses of `someLiterals`. -/
def someStrings (a : Nat) : String :=
  if a = 0x402000 ∨ a = 0x40200c then "user32.dll"
  else if a = 0x402018 ∨ a = 0x402024 then "MessageBoxA"
  else if a = 0x402030 then "It works!"
  else if a = 0x40203c then "Ok"
  else ""

/-- What the Win32 documentation says of `GetProcAddress`, for a loader `w`, the
strings `cstr` found at the addresses, and the export tables `exports` of the
loaded modules: the call leaves the loader state as it is, it reads the name
and not its address, and it answers non-null for a name the module exports. -/
structure LookupContract {σ : Type} (w : Win32 σ) (cstr : Nat → String)
    (exports : σ → Nat → String → Bool) : Prop where
  leaves_state : ∀ h p s, (w.GetProcAddress h p s).2 = s
  reads_name : ∀ h p q s, cstr p = cstr q →
    (w.GetProcAddress h p s).1 = (w.GetProcAddress h q s).1
  finds_exported : ∀ h p s, h ≠ 0 → exports s h (cstr p) = true →
    (w.GetProcAddress h p s).1 % WORD_SIZE ≠ 0

/-- A loader that knows the one module user32.dll, mapped at 0x75000000 and
exporting MessageBoxA at 0x75001234; its state is the reference count of the
module.  `cstr` gives the string at an address. -/
def oneModuleWin32 (cstr : Nat → String) : Win32 Nat where
  LoadLibraryA := fun n s =>
    if cstr n = "user32.dll" then (0x75000000, s + 1) else (0, s)
  LoadLibraryExA := fun n _ _ s =>
    if cstr n = "user32.dll" then (0x75000000, s + 1) else (0, s)
  FreeLibrary := fun h s =>
    if h = 0x75000000 ∧ 0 < s then (1, s - 1) else (0, s)
  GetProcAddress := fun h p s =>
    if h = 0x75000000 ∧ 0 < s ∧ cstr p = "MessageBoxA" then (0x75001234, s) else (0, s)
  procAt := fun _ _ _ _ _ s => (1, s)

/-- The export table of the loader `oneModuleWin32`. -/
def oneModuleExports (s : Nat) (h : Nat) (name : String) : Bool :=
  decide (h = 0x75000000 ∧ 0 < s ∧ name = "MessageBoxA")

end winapi

/-! ## msgbox.cpp : the `EXPORT_ALIAS` table -/

namespace msgbox

/-- What the preprocessor of msgbox.cpp tests: whether `_WIN64` is defined and
the value of `_MSC_VER`. -/
structure BuildConfig where
  _WIN64 : Bool
  _MSC_VER : Nat
deriving DecidableEq

/-- One export directive: the decorated name published and the symbol it stands for. -/
structure ExportAlias where
  name : String
  aliasName : String
deriving DecidableEq

/-- The macro `EXPORT_ALIAS(name, alias)`; `alias` is the decorated name. -/
def EXPORT_ALIAS (name aliasName : String) : ExportAlias := ⟨name, aliasName⟩

/-- The linker option the macro expands to: `"/export:" alias "=" name`. -/
def ExportAlias.linkerComment (e : ExportAlias) : String :=
  "/export:" ++ e.aliasName ++ "=" ++ e.name

deriving instance DecidableEq for Except

/-- The directives msgbox.cpp emits under a build configuration, or the `#error`. -/
def exportTable (cfg : BuildConfig) : Except String (List ExportAlias) :=
  if cfg._WIN64 then
    if cfg._MSC_VER = 1900 then
      .ok [EXPORT_ALIAS "MessageBoxA" "?MsgBox@winapi@@YA?AW4ID@1@PEAVWindow@1@PEBD1W4MB@1@@Z",
           EXPORT_ALIAS "MessageBoxW" "?MsgBox@winapi@@YA?AW4ID@1@PEAVWindow@1@PEB_W1W4MB@1@@Z"]
    else if cfg._MSC_VER = 1800 then
      .ok [EXPORT_ALIAS "MessageBoxA" "?MsgBox@winapi@@YG?AW4ID@1@PAVWindow@1@PBD1W4MB@1@@Z",
           EXPORT_ALIAS "MessageBoxW" "?MsgBox@winapi@@YG?AW4ID@1@PAVWindow@1@PB_W1W4MB@1@@Z"]
    else
      .error "This compiler version is not supported"
  else
    .ok [EXPORT_ALIAS "_MessageBoxA@16" "?MsgBox@winapi@@YG?AW4ID@1@PAVWindow@1@PBD1W4MB@1@@Z",
         EXPORT_ALIAS "_MessageBoxW@16" "?MsgBox@winapi@@YG?AW4ID@1@PAVWindow@1@PB_W1W4MB@1@@Z"]

/-- The directives of a configuration; none where the table is not defined. -/
def entriesOf (cfg : BuildConfig) : List ExportAlias :=
  match exportTable cfg with
  | .ok entries => entries
  | .error _ => []

/-- The configurations the table supports: 32-bit, 64-bit with `_MSC_VER` 1900,
64-bit with `_MSC_VER` 1800. -/
def supported (cfg : BuildConfig) : Prop :=
  cfg._WIN64 = false ∨ cfg._MSC_VER = 1900 ∨ cfg._MSC_VER = 1800

instance (cfg : BuildConfig) : Decidable (supported cfg) := by
  unfold supported; infer_instance

/-! ### The declarations of msgbox.h the aliases stand for -/

/-- The parameter types occurring in the two `MsgBox` overloads. -/
inductive ParamType where
  | WindowPtr
  | constCharPtr
  | constWCharPtr
  | enumMB
deriving DecidableEq

/-- The overload `MsgBox(Window * owner, const char * text, const char * title, MB type)`. -/
def MsgBoxNarrow : List ParamType :=
  [ParamType.WindowPtr, ParamType.constCharPtr, ParamType.constCharPtr, ParamType.enumMB]

/-- The overload
`MsgBox(Window * owner, const wchar_t * text, const wchar_t * title, MB type)`. -/
def MsgBoxWide : List ParamType :=
  [ParamType.WindowPtr, ParamType.constWCharPtr, ParamType.constWCharPtr, ParamType.enumMB]

/-- Bytes a parameter takes on the 32-bit `__stdcall` stack: each of the four
types is a pointer or a 32-bit enumeration. -/
def stackBytes32 : ParamType → Nat
  | ParamType.WindowPtr => 4
  | ParamType.constCharPtr => 4
  | ParamType.constWCharPtr => 4
  | ParamType.enumMB => 4

/-- The 32-bit `__stdcall` symbol of a C function: `_name@bytes`. -/
def stdcallSymbol (name : String) (params : List ParamType) : String :=
  "_" ++ name ++ "@" ++ toString (params.map stackBytes32).sum

/-- The Visual C++ code of a parameter type inside a decorated name; pointers
carry the extra `E` in 64-bit code. -/
def typeCode (win64 : Bool) : ParamType → String
  | ParamType.WindowPtr => (if win64 then "PEA" else "PA") ++ "VWindow@1@"
  | ParamType.constCharPtr => (if win64 then "PEB" else "PB") ++ "D"
  | ParamType.constWCharPtr => (if win64 then "PEB" else "PB") ++ "_W"
  | ParamType.enumMB => "W4MB@1@"

/-- The parameter list of a decorated name: a type seen before is written as the
digit of its first position. -/
def paramCodes (win64 : Bool) : List ParamType → List ParamType → String
  | _, [] => ""
  | seen, t :: ts =>
      match seen.indexOf? t with
      | some i => toString i ++ paramCodes win64 seen ts
      | none => typeCode win64 t ++ paramCodes win64 (seen ++ [t]) ts

/-- The name under which a consumer imports a `MsgBox` overload of msgbox.h,
following the Visual C++ decoration scheme: the calling-convention marker is
`YG` for `__stdcall` in 32-bit code and `YA` in 64-bit code, where `__stdcall`
is ignored; the return type `enum ID` is `?AW4ID@1@`. -/
def importedName (win64 : Bool) (params : List ParamType) : String :=
  "?MsgBox@winapi@@" ++ (if win64 then "YA" else "YG") ++ "?AW4ID@1@" ++
    paramCodes win64 [] params ++ "@Z"

/-- Whether `marker` occurs in `s`. -/
def carries (marker s : String) : Bool :=
  s.toList.tails.any (fun t => marker.toList.isPrefixOf t)

/-- Whether `s` ends with `ending`. -/
def endsWith (s ending : String) : Bool :=
  ending.toList.isSuffixOf s.toList

/-- The decorated name encodes the narrow-string overload: text and title are
`const char *` (code ending in `D`, repeated as `1`), then `MB`. -/
def encodesNarrow (aliasName : String) : Bool :=
  endsWith aliasName "PEBD1W4MB@1@@Z" || endsWith aliasName "PBD1W4MB@1@@Z"

/-- The decorated name encodes the wide-string overload: text and title are
`const wchar_t *` (code `_W`, repeated as `1`), then `MB`. -/
def encodesWide (aliasName : String) : Bool :=
  endsWith aliasName "PEB_W1W4MB@1@@Z" || endsWith aliasName "PB_W1W4MB@1@@Z"

/-- The ANSI entry point as the linker names it, in 64-bit or in 32-bit code. -/
def ansiTarget (win64 : Bool) : String :=
  if win64 then "MessageBoxA" else stdcallSymbol "MessageBoxA" MsgBoxNarrow

/-- The wide entry point as the linker names it, in 64-bit or in 32-bit code. -/
def wideTarget (win64 : Bool) : String :=
  if win64 then "MessageBoxW" else stdcallSymbol "MessageBoxW" MsgBoxWide

end msgbox

/-! ## Flag algebra -/

theorem uint32_or_lt (a b : Nat) : uint32_or a b < UINT32_SIZE :=
  Nat.mod_lt _ (by decide)

theorem uint32_or_eq {a b : Nat} (ha : a < UINT32_SIZE) (hb : b < UINT32_SIZE) :
    uint32_or a b = a ||| b := by
  unfold uint32_or
  apply Nat.mod_eq_of_lt
  have h : (4294967296 : Nat) = 2 ^ 32 := by norm_num
  unfold UINT32_SIZE at *
  rw [h] at *
  exact Nat.or_lt_two_pow ha hb

namespace winapi

theorem MB_or_val (l r : MB) : (MB.or l r).val = l.val ||| r.val := by
  show (uint32_or l.val r.val) % UINT32_SIZE = _
  rw [Nat.mod_eq_of_lt (uint32_or_lt _ _), uint32_or_eq l.isLt r.isLt]

theorem MB_eq_of_val {a b : MB} (h : a.val = b.val) : a = b := by
  cases a; cases b; simp only [MB.mk.injEq]; exact h

theorem LoadingFlags_or_val (l r : LoadingFlags) :
    (LoadingFlags.or l r).val = l.val ||| r.val := by
  show (uint32_or l.val r.val) % UINT32_SIZE = _
  rw [Nat.mod_eq_of_lt (uint32_or_lt _ _), uint32_or_eq l.isLt r.isLt]

theorem LoadingFlags_eq_of_val {a b : LoadingFlags} (h : a.val = b.val) : a = b := by
  cases a; cases b; simp only [LoadingFlags.mk.injEq]; exact h

/-- C1: on every 32-bit pattern of `MB` and of `LoadingFlags`, `operator|` is
commutative, associative and idempotent. -/
theorem flags_or_comm_assoc_idem :
    (∀ a b c : MB,
      MB.or a b = MB.or b a ∧
      MB.or (MB.or a b) c = MB.or a (MB.or b c) ∧
      MB.or a a = a) ∧
    (∀ a b c : LoadingFlags,
      LoadingFlags.or a b = LoadingFlags.or b a ∧
      LoadingFlags.or (LoadingFlags.or a b) c = LoadingFlags.or a (LoadingFlags.or b c) ∧
      LoadingFlags.or a a = a) := by
  refine ⟨fun a b c => ⟨?_, ?_, ?_⟩, fun a b c => ⟨?_, ?_, ?_⟩⟩
  · apply MB_eq_of_val
    rw [MB_or_val, MB_or_val, Nat.lor_comm]
  · apply MB_eq_of_val
    rw [MB_or_val, MB_or_val, MB_or_val, MB_or_val, Nat.lor_assoc]
  · apply MB_eq_of_val
    rw [MB_or_val, Nat.or_self]
  · apply LoadingFlags_eq_of_val
    rw [LoadingFlags_or_val, LoadingFlags_or_val, Nat.lor_comm]
  · apply LoadingFlags_eq_of_val
    rw [LoadingFlags_or_val, LoadingFlags_or_val, LoadingFlags_or_val, LoadingFlags_or_val,
      Nat.lor_assoc]
  · apply LoadingFlags_eq_of_val
    rw [LoadingFlags_or_val, Nat.or_self]

/-- C8 (as stated, refuted): not every named enumerator of `MB` has exactly one
bit set; `MB::OK` is 0, and `MB::OKCANCEL | MB::ABORTRETRYIGNORE` is the named
enumerator `MB::YESNOCANCEL`. -/
theorem named_flags_not_all_single_bit :
    ¬ ((∀ e ∈ MB.enumerators, singleBit e.val) ∧
       (∀ f ∈ LoadingFlags.enumerators, singleBit f.val)) ∧
    ¬ singleBit MB.OK.val ∧
    MB.OKCANCEL ≠ MB.ABORTRETRYIGNORE ∧
    MB.or MB.OKCANCEL MB.ABORTRETRYIGNORE = MB.YESNOCANCEL ∧
    MB.YESNOCANCEL ∈ MB.enumerators := by
  decide

/-- C8 (amended): every named enumerator of `LoadingFlags` has exactly one bit
set, distinct named `LoadingFlags` share no bit, and combining two distinct named
`LoadingFlags` never gives a named one; the named enumerators of `MB` have
pairwise distinct values. -/
theorem named_flags_bit_structure :
    (∀ f ∈ LoadingFlags.enumerators, singleBit f.val) ∧
    (∀ f ∈ LoadingFlags.enumerators, ∀ g ∈ LoadingFlags.enumerators,
      f ≠ g → f.val &&& g.val = 0) ∧
    (∀ f ∈ LoadingFlags.enumerators, ∀ g ∈ LoadingFlags.enumerators,
      f ≠ g → LoadingFlags.or f g ∉ LoadingFlags.enumerators) ∧
    (MB.enumerators.map MB.val).Nodup := by
  decide

end winapi

/-! ## hacking_handles.cpp -/

namespace hacking_handles

/-- C2: for every file name and every answer of the loader, `Module::Load` returns
a pointer whose conversion back with `operator HMODULE` is exactly the handle
`LoadLibraryA` returned, it is null exactly when that handle is null, and the
loader state is the one `LoadLibraryA` left. -/
theorem Load_returns_os_handle {σ : Type} (os : Win32 σ) (fileName : String) (s : σ) :
    Module.toHMODULE (Module.Load os fileName s).1 = (os.LoadLibraryA fileName s).1 ∧
    ((Module.Load os fileName s).1 = Module.null ↔ (os.LoadLibraryA fileName s).1 = 0) ∧
    (Module.Load os fileName s).2 = (os.LoadLibraryA fileName s).2 := by
  refine ⟨rfl, ?_, rfl⟩
  constructor
  · intro h
    have h2 := congrArg Module.addr h
    exact h2
  · intro h
    show Module.ofHMODULE (os.LoadLibraryA fileName s).1 = Module.null
    rw [h]
    rfl

/-- C3 (the code at the failing input): when `FreeLibrary` reports success with
the nonzero value 2, `Module::Free` returns false. -/
theorem Free_false_on_nonzero_success :
    ((constWin32 0x10000000 2).FreeLibrary 0x10000000 ()).1 ≠ FALSE ∧
    (Module.Free (constWin32 0x10000000 2) (Module.ofHMODULE 0x10000000) ()).1 = false := by
  decide

/-- What `Module::Free` computes: true exactly when `FreeLibrary` returned `TRUE`. -/
theorem Free_true_iff {σ : Type} (os : Win32 σ) (this : Module) (s : σ) :
    (Module.Free os this s).1 = true ↔ (os.FreeLibrary this.toHMODULE s).1 = 1 := by
  show decide ((os.FreeLibrary this.toHMODULE s).1 = TRUE) = true ↔ _
  rw [decide_eq_true_iff]
  rfl

end hacking_handles

/-! ## using-asm-jmp.cpp and its test -/

namespace winapi

theorem callLoad_calls {σ : Type} (w : Win32 σ) (n : Nat) (m : Machine σ) :
    (callLoad w n m).2.calls = m.calls ++ [OsCall.LoadLibraryA n (callLoad w n m).1] := rfl

theorem callLoadEx_calls {σ : Type} (w : Win32 σ) (n : Nat) (f : LoadingFlags)
    (m : Machine σ) :
    (callLoadEx w n f m).2.calls =
      m.calls ++ [OsCall.LoadLibraryExA n 0 f.toUInt32 (callLoadEx w n f m).1] := rfl

theorem callGetProcAddress_calls {σ : Type} (w : Win32 σ) (h p : Nat) (m : Machine σ) :
    (callGetProcAddress w h p m).2.calls =
      m.calls ++ [OsCall.GetProcAddress h p (callGetProcAddress w h p m).1] := rfl

theorem callFree_calls {σ : Type} (w : Win32 σ) (h : Nat) (m : Machine σ) :
    (callFree w h m).2.calls =
      m.calls ++ [OsCall.FreeLibrary h (callFree w h m).2.eax] := rfl

theorem call_procAt_calls {σ : Type} (w : Win32 σ) (a a1 a2 a3 a4 : Nat) (m : Machine σ) :
    (call (w.procAt_entry a) [a1, a2, a3, a4] m).calls =
      m.calls ++ [OsCall.procAt a a1 a2 a3 a4 (call (w.procAt_entry a) [a1, a2, a3, a4] m).eax] :=
  rfl

theorem loadBoth_calls {σ : Type} (w : Win32 σ) (n1 n2 : Nat) (f : LoadingFlags)
    (m : Machine σ) :
    (loadBoth w n1 n2 f m).2.calls =
      m.calls ++ [OsCall.LoadLibraryA n1 (loadBoth w n1 n2 f m).1.1,
        OsCall.LoadLibraryExA n2 0 f.toUInt32 (loadBoth w n1 n2 f m).1.2] := by
  show (callLoadEx w n2 f (callLoad w n1 m).2).2.calls = _
  rw [callLoadEx_calls, callLoad_calls, List.append_assoc]
  rfl

theorem resolveBoth_calls {σ : Type} (w : Win32 σ) (l1 l2 p1 p2 : Nat) (m : Machine σ) :
    (resolveBoth w l1 l2 p1 p2 m).2.calls =
      m.calls ++ [OsCall.GetProcAddress l1 p1 (resolveBoth w l1 l2 p1 p2 m).1.1,
        OsCall.GetProcAddress l2 p2 (resolveBoth w l1 l2 p1 p2 m).1.2] := by
  show (callGetProcAddress w l2 p2 (callGetProcAddress w l1 p1 m).2).2.calls = _
  rw [callGetProcAddress_calls, callGetProcAddress_calls, List.append_assoc]
  rfl

/-- C4 (the code at the failing input): with a `FreeLibrary` that reports success
by the nonzero value 0x100, the direct call `FreeLibrary(handle)` yields 0x100
while `handle->Free()` yields the byte 0, that is `false`. -/
theorem Free_thunk_differs_from_FreeLibrary :
    (directFreeLibrary (constWin32 0x75000000 0x75000000 0x100 0) 0x75000000
      (startMachine ())).1 = 0x100 ∧
    (callFree (constWin32 0x75000000 0x75000000 0x100 0) 0x75000000
      (startMachine ())).1 = 0 := by
  decide

/-- What the four thunks do, for every argument tuple, machine state and answer
of the operating system: `Module::Load(name)`, `Module::Load(name, nullptr, flags)`
and `handle->GetProcAddress(procName)` give the result and the machine state of
the direct calls; `handle->Free()` leaves the machine as `FreeLibrary(handle)`
does and its `bool` is the low byte of the `BOOL` result, which is that result
when it is 0 or 1. -/
theorem thunks_forward_to_targets {σ : Type} (w : Win32 σ) (m : Machine σ)
    (fileName handle procName : Nat) (flags : LoadingFlags) :
    callLoad w fileName m = directLoadLibraryA w fileName m ∧
    callLoadEx w fileName flags m = directLoadLibraryExA w fileName 0 flags.toUInt32 m ∧
    callGetProcAddress w handle procName m = directGetProcAddress w handle procName m ∧
    (callFree w handle m).2 = (directFreeLibrary w handle m).2 ∧
    (callFree w handle m).1 = (directFreeLibrary w handle m).1 % 256 ∧
    ((directFreeLibrary w handle m).1 = 0 ∨ (directFreeLibrary w handle m).1 = 1 →
      (callFree w handle m).1 = (directFreeLibrary w handle m).1) := by
  refine ⟨rfl, rfl, rfl, rfl, rfl, ?_⟩
  intro h
  show (directFreeLibrary w handle m).1 % 256 = _
  rcases h with h | h <;> rw [h]

theorem oneModule_contract (cstr : Nat → String) :
    LookupContract (oneModuleWin32 cstr) cstr oneModuleExports where
  leaves_state := by
    intro h p s
    show (if h = 0x75000000 ∧ 0 < s ∧ cstr p = "MessageBoxA"
      then (0x75001234, s) else (0, s)).2 = s
    split <;> rfl
  reads_name := by
    intro h p q s hpq
    show (if h = 0x75000000 ∧ 0 < s ∧ cstr p = "MessageBoxA"
      then (0x75001234, s) else (0, s)).1 =
      (if h = 0x75000000 ∧ 0 < s ∧ cstr q = "MessageBoxA"
      then (0x75001234, s) else (0, s)).1
    rw [hpq]
  finds_exported := by
    intro h p s _ hex
    have hex2 : h = 0x75000000 ∧ 0 < s ∧ cstr p = "MessageBoxA" := of_decide_eq_true hex
    show (if h = 0x75000000 ∧ 0 < s ∧ cstr p = "MessageBoxA"
      then (0x75001234, s) else (0, s)).1 % WORD_SIZE ≠ 0
    rw [if_pos hex2]
    show (0x75001234 : Nat) % WORD_SIZE ≠ 0
    decide

theorem resolveBoth_of_contract {σ : Type} (w : Win32 σ) (cstr : Nat → String)
    (exports : σ → Nat → String → Bool) (lib proc1 proc2 : Nat) (m : Machine σ)
    (hos : LookupContract w cstr exports) (hproc : cstr proc1 = cstr proc2) :
    (resolveBoth w lib lib proc1 proc2 m).1.1 =
      (w.GetProcAddress lib proc1 m.os).1 % WORD_SIZE ∧
    (resolveBoth w lib lib proc1 proc2 m).1.2 =
      (w.GetProcAddress lib proc1 m.os).1 % WORD_SIZE := by
  refine ⟨rfl, ?_⟩
  show (w.GetProcAddress lib proc2 (w.GetProcAddress lib proc1 m.os).2).1 % WORD_SIZE = _
  rw [hos.leaves_state, hos.reads_name lib proc1 proc2 m.os hproc]

/-- C5: let the two loads `Module::Load(name1)` and
`Module::Load(name2, nullptr, flags)` return the same non-null handle, and let
`proc1` and `proc2` be addresses of the same procedure name (two literals, as
in main.cpp, or one).  Under the documented behaviour of the Win32
`GetProcAddress`, the two lookups through the thunk reach the operating system
as `GetProcAddress(lib1, proc1)` and `GetProcAddress(lib2, proc2)` and nothing
else, leave the stack balanced, return the address the Win32 lookup of the
name in the module gives, the same for both, and both are non-null when the
module exports the name. -/
theorem same_module_same_address {σ : Type} (w : Win32 σ) (cstr : Nat → String)
    (exports : σ → Nat → String → Bool) (name1 name2 proc1 proc2 : Nat)
    (flags : LoadingFlags) (m : Machine σ)
    (hos : LookupContract w cstr exports)
    (hproc : cstr proc1 = cstr proc2)
    (h1 : (loadBoth w name1 name2 flags m).1.1 ≠ 0)
    (hsame : (loadBoth w name1 name2 flags m).1.1 = (loadBoth w name1 name2 flags m).1.2) :
    (resolveBoth w (loadBoth w name1 name2 flags m).1.1 (loadBoth w name1 name2 flags m).1.2
        proc1 proc2 (loadBoth w name1 name2 flags m).2).1.1 =
      (resolveBoth w (loadBoth w name1 name2 flags m).1.1 (loadBoth w name1 name2 flags m).1.2
        proc1 proc2 (loadBoth w name1 name2 flags m).2).1.2 ∧
    (resolveBoth w (loadBoth w name1 name2 flags m).1.1 (loadBoth w name1 name2 flags m).1.2
        proc1 proc2 (loadBoth w name1 name2 flags m).2).1.1 =
      (w.GetProcAddress (loadBoth w name1 name2 flags m).1.1 proc1
        (loadBoth w name1 name2 flags m).2.os).1 % WORD_SIZE ∧
    (resolveBoth w (loadBoth w name1 name2 flags m).1.1 (loadBoth w name1 name2 flags m).1.2
        proc1 proc2 (loadBoth w name1 name2 flags m).2).2.calls =
      (loadBoth w name1 name2 flags m).2.calls ++
        [OsCall.GetProcAddress (loadBoth w name1 name2 flags m).1.1 proc1
          ((w.GetProcAddress (loadBoth w name1 name2 flags m).1.1 proc1
            (loadBoth w name1 name2 flags m).2.os).1 % WORD_SIZE),
         OsCall.GetProcAddress (loadBoth w name1 name2 flags m).1.2 proc2
          ((w.GetProcAddress (loadBoth w name1 name2 flags m).1.1 proc1
            (loadBoth w name1 name2 flags m).2.os).1 % WORD_SIZE)] ∧
    (resolveBoth w (loadBoth w name1 name2 flags m).1.1 (loadBoth w name1 name2 flags m).1.2
        proc1 proc2 (loadBoth w name1 name2 flags m).2).2.stack =
      (loadBoth w name1 name2 flags m).2.stack ∧
    (exports (loadBoth w name1 name2 flags m).2.os (loadBoth w name1 name2 flags m).1.1
        (cstr proc1) = true →
      (resolveBoth w (loadBoth w name1 name2 flags m).1.1 (loadBoth w name1 name2 flags m).1.2
        proc1 proc2 (loadBoth w name1 name2 flags m).2).1.1 ≠ 0 ∧
      (resolveBoth w (loadBoth w name1 name2 flags m).1.1 (loadBoth w name1 name2 flags m).1.2
        proc1 proc2 (loadBoth w name1 name2 flags m).2).1.2 ≠ 0) := by
  rw [← hsame]
  generalize (loadBoth w name1 name2 flags m).1.1 = lib at h1
  generalize (loadBoth w name1 name2 flags m).2 = m2
  obtain ⟨e1, e2⟩ := resolveBoth_of_contract w cstr exports lib proc1 proc2 m2 hos hproc
  refine ⟨e1.trans e2.symm, e1, ?_, rfl, fun hex => ?_⟩
  · rw [resolveBoth_calls, e1, e2]
  · rw [e2, e1]
    exact ⟨hos.finds_exported lib proc1 m2.os h1 hex, hos.finds_exported lib proc1 m2.os h1 hex⟩

/-- C5 at the loader `oneModuleWin32`, with the two literals of main.cpp for each
name: both lookups give the same non-null address. -/
theorem same_module_same_address_witness :
    (resolveBoth (oneModuleWin32 someStrings)
        (loadBoth (oneModuleWin32 someStrings) 0x402000 0x40200c
          LoadingFlags.DONT_RESOLVE_DLL_REFERENCES (startMachine 0)).1.1
        (loadBoth (oneModuleWin32 someStrings) 0x402000 0x40200c
          LoadingFlags.DONT_RESOLVE_DLL_REFERENCES (startMachine 0)).1.2
        0x402018 0x402024
        (loadBoth (oneModuleWin32 someStrings) 0x402000 0x40200c
          LoadingFlags.DONT_RESOLVE_DLL_REFERENCES (startMachine 0)).2).1.1 ≠ 0 ∧
    (resolveBoth (oneModuleWin32 someStrings)
        (loadBoth (oneModuleWin32 someStrings) 0x402000 0x40200c
          LoadingFlags.DONT_RESOLVE_DLL_REFERENCES (startMachine 0)).1.1
        (loadBoth (oneModuleWin32 someStrings) 0x402000 0x40200c
          LoadingFlags.DONT_RESOLVE_DLL_REFERENCES (startMachine 0)).1.2
        0x402018 0x402024
        (loadBoth (oneModuleWin32 someStrings) 0x402000 0x40200c
          LoadingFlags.DONT_RESOLVE_DLL_REFERENCES (startMachine 0)).2).1.2 ≠ 0 :=
  (same_module_same_address (oneModuleWin32 someStrings) someStrings oneModuleExports
    0x402000 0x40200c 0x402018 0x402024 LoadingFlags.DONT_RESOLVE_DLL_REFERENCES
    (startMachine 0) (oneModule_contract someStrings) (by decide) (by decide)
    (by decide)).2.2.2.2 (by decide)

/-- C9 (the code at the failing input): when `LoadLibraryA` answers the handle
0x75000000 and `LoadLibraryExA` answers null, `main` returns with that handle
loaded once and `FreeLibrary` never called. -/
theorem main_leaks_when_one_load_fails :
    loadedHandles (main (constWin32 0x75000000 0 1 0x75001234) someLiterals
      (startMachine ())).calls = [0x75000000] ∧
    freedHandles (main (constWin32 0x75000000 0 1 0x75001234) someLiterals
      (startMachine ())).calls = [] := by
  decide

theorem loadedHandles_append (xs ys : List OsCall) :
    loadedHandles (xs ++ ys) = loadedHandles xs ++ loadedHandles ys := by
  induction xs with
  | nil => rfl
  | cons c cs ih =>
    cases c <;> simp [loadedHandles, ih] <;> split <;> simp

theorem freedHandles_append (xs ys : List OsCall) :
    freedHandles (xs ++ ys) = freedHandles xs ++ freedHandles ys := by
  induction xs with
  | nil => rfl
  | cons c cs ih =>
    cases c <;> simp [freedHandles, ih]

/-- What `main` does with the handles, for every loader: both loads are made, and
the two handles are passed to `FreeLibrary`, once each, exactly when both are
non-null; otherwise `FreeLibrary` is not called. -/
theorem main_handles {σ : Type} (w : Win32 σ) (lit : Literals) (m : Machine σ) :
    loadedHandles (main w lit m).calls =
      loadedHandles m.calls ++
        ((if (loadBoth w lit.user32_dll_1 lit.user32_dll_2
              LoadingFlags.DONT_RESOLVE_DLL_REFERENCES m).1.1 ≠ 0
          then [(loadBoth w lit.user32_dll_1 lit.user32_dll_2
              LoadingFlags.DONT_RESOLVE_DLL_REFERENCES m).1.1] else []) ++
         (if (loadBoth w lit.user32_dll_1 lit.user32_dll_2
              LoadingFlags.DONT_RESOLVE_DLL_REFERENCES m).1.2 ≠ 0
          then [(loadBoth w lit.user32_dll_1 lit.user32_dll_2
              LoadingFlags.DONT_RESOLVE_DLL_REFERENCES m).1.2] else [])) ∧
    freedHandles (main w lit m).calls =
      freedHandles m.calls ++
        (if (loadBoth w lit.user32_dll_1 lit.user32_dll_2
              LoadingFlags.DONT_RESOLVE_DLL_REFERENCES m).1.1 ≠ 0 ∧
            (loadBoth w lit.user32_dll_1 lit.user32_dll_2
              LoadingFlags.DONT_RESOLVE_DLL_REFERENCES m).1.2 ≠ 0
          then [(loadBoth w lit.user32_dll_1 lit.user32_dll_2
              LoadingFlags.DONT_RESOLVE_DLL_REFERENCES m).1.1,
            (loadBoth w lit.user32_dll_1 lit.user32_dll_2
              LoadingFlags.DONT_RESOLVE_DLL_REFERENCES m).1.2] else []) := by
  have hl := loadBoth_calls w lit.user32_dll_1 lit.user32_dll_2
    LoadingFlags.DONT_RESOLVE_DLL_REFERENCES m
  unfold main
  generalize loadBoth w lit.user32_dll_1 lit.user32_dll_2
    LoadingFlags.DONT_RESOLVE_DLL_REFERENCES m = l at hl ⊢
  obtain ⟨⟨lib1, lib2⟩, m2⟩ := l
  simp only at hl ⊢
  by_cases hc : lib1 ≠ 0 ∧ lib2 ≠ 0
  · rw [if_pos hc, if_pos hc, if_pos hc.1, if_pos hc.2]
    rw [callFree_calls, callFree_calls]
    split
    · rw [call_procAt_calls, resolveBoth_calls, hl]
      simp [loadedHandles_append, freedHandles_append, loadedHandles, freedHandles, hc.1, hc.2]
    · rw [resolveBoth_calls, hl]
      simp [loadedHandles_append, freedHandles_append, loadedHandles, freedHandles, hc.1, hc.2]
  · rw [if_neg hc, if_neg hc, hl]
    by_cases h1 : lib1 = 0 <;> by_cases h2 : lib2 = 0 <;>
      simp [loadedHandles_append, freedHandles_append, loadedHandles, freedHandles, h1, h2]

/-- The test of main.cpp passes under the documented behaviour of `GetProcAddress`:
when the two loads return the same non-null handle and the module exports the
name both `MessageBoxA` literals spell, `main` calls the procedure at the
address the Win32 lookup gives, with the arguments of the source. -/
theorem main_calls_resolved_procedure {σ : Type} (w : Win32 σ) (cstr : Nat → String)
    (exports : σ → Nat → String → Bool) (lit : Literals) (m : Machine σ)
    (hos : LookupContract w cstr exports)
    (hproc : cstr lit.MessageBoxA_1 = cstr lit.MessageBoxA_2)
    (h1 : (loadBoth w lit.user32_dll_1 lit.user32_dll_2
      LoadingFlags.DONT_RESOLVE_DLL_REFERENCES m).1.1 ≠ 0)
    (hsame : (loadBoth w lit.user32_dll_1 lit.user32_dll_2
        LoadingFlags.DONT_RESOLVE_DLL_REFERENCES m).1.1 =
      (loadBoth w lit.user32_dll_1 lit.user32_dll_2
        LoadingFlags.DONT_RESOLVE_DLL_REFERENCES m).1.2)
    (hex : exports (loadBoth w lit.user32_dll_1 lit.user32_dll_2
        LoadingFlags.DONT_RESOLVE_DLL_REFERENCES m).2.os
      (loadBoth w lit.user32_dll_1 lit.user32_dll_2
        LoadingFlags.DONT_RESOLVE_DLL_REFERENCES m).1.1 (cstr lit.MessageBoxA_1) = true) :
    ∃ r, OsCall.procAt
        ((w.GetProcAddress (loadBoth w lit.user32_dll_1 lit.user32_dll_2
            LoadingFlags.DONT_RESOLVE_DLL_REFERENCES m).1.1 lit.MessageBoxA_1
          (loadBoth w lit.user32_dll_1 lit.user32_dll_2
            LoadingFlags.DONT_RESOLVE_DLL_REFERENCES m).2.os).1 % WORD_SIZE)
        0 lit.It_works lit.Ok 0 r ∈ (main w lit m).calls := by
  unfold main
  generalize loadBoth w lit.user32_dll_1 lit.user32_dll_2
    LoadingFlags.DONT_RESOLVE_DLL_REFERENCES m = l at h1 hsame hex ⊢
  obtain ⟨⟨lib1, lib2⟩, m2⟩ := l
  simp only at h1 hsame hex ⊢
  subst hsame
  obtain ⟨e1, e2⟩ := resolveBoth_of_contract w cstr exports lib1 lit.MessageBoxA_1
    lit.MessageBoxA_2 m2 hos hproc
  have hnn := hos.finds_exported lib1 lit.MessageBoxA_1 m2.os h1 hex
  rw [if_pos ⟨h1, h1⟩, if_pos ⟨by rw [e1]; exact hnn, e1.trans e2.symm⟩]
  rw [callFree_calls, callFree_calls, call_procAt_calls, e1]
  rw [List.append_assoc, List.append_assoc]
  exact ⟨_, List.mem_append_right _ (List.mem_cons_self _ _)⟩

/-- The same run with both loads succeeding: each handle is freed once. -/
theorem main_frees_when_both_loads_succeed :
    loadedHandles (main (constWin32 0x75000000 0x75000000 1 0x75001234) someLiterals
      (startMachine ())).calls = [0x75000000, 0x75000000] ∧
    freedHandles (main (constWin32 0x75000000 0x75000000 1 0x75001234) someLiterals
      (startMachine ())).calls = [0x75000000, 0x75000000] := by
  decide

end winapi

/-! ## msgbox.cpp -/

namespace msgbox

/-- C6: in every supported build configuration the table is defined, its
decorated export names are pairwise distinct, and a decorated export name has
one target only. -/
theorem exportTable_names_unique (cfg : BuildConfig) (h : supported cfg) :
    ∃ entries, exportTable cfg = .ok entries ∧
      (entries.map ExportAlias.aliasName).Nodup ∧
      ∀ e1 ∈ entries, ∀ e2 ∈ entries, e1.aliasName = e2.aliasName → e1.name = e2.name := by
  obtain ⟨w64, ver⟩ := cfg
  cases w64
  · exact ⟨_, rfl, by decide, by decide⟩
  · by_cases h19 : ver = 1900
    · subst h19
      exact ⟨_, rfl, by decide, by decide⟩
    · by_cases h18 : ver = 1800
      · subst h18
        exact ⟨_, rfl, by decide, by decide⟩
      · exfalso
        rcases h with h | h | h
        · exact Bool.noConfusion h
        · exact h19 h
        · exact h18 h

/-- C6 at the 64-bit configuration of VC++ 2015. -/
theorem exportTable_names_unique_witness :
    ∃ entries, exportTable ⟨true, 1900⟩ = .ok entries ∧
      (entries.map ExportAlias.aliasName).Nodup ∧
      ∀ e1 ∈ entries, ∀ e2 ∈ entries, e1.aliasName = e2.aliasName → e1.name = e2.name :=
  exportTable_names_unique ⟨true, 1900⟩ (by decide)

/-- C7 (the code at the failing input): in the 64-bit configuration of VC++ 2013
the two decorated names are the names a 32-bit consumer imports, not those a
64-bit consumer imports; each carries `YG` and `PAVWindow` and neither `YA` nor
`PEAVWindow`. -/
theorem exportTable_win64_1800_has_32bit_names :
    exportTable ⟨true, 1800⟩ =
      .ok [EXPORT_ALIAS "MessageBoxA" "?MsgBox@winapi@@YG?AW4ID@1@PAVWindow@1@PBD1W4MB@1@@Z",
           EXPORT_ALIAS "MessageBoxW" "?MsgBox@winapi@@YG?AW4ID@1@PAVWindow@1@PB_W1W4MB@1@@Z"] ∧
    (entriesOf ⟨true, 1800⟩).map ExportAlias.aliasName =
      [importedName false MsgBoxNarrow, importedName false MsgBoxWide] ∧
    (entriesOf ⟨true, 1800⟩).map ExportAlias.aliasName ≠
      [importedName true MsgBoxNarrow, importedName true MsgBoxWide] ∧
    (entriesOf ⟨true, 1800⟩).map ExportAlias.aliasName =
      (entriesOf ⟨false, 1800⟩).map ExportAlias.aliasName ∧
    (∀ e ∈ entriesOf ⟨true, 1800⟩,
      carries "YG" e.aliasName = true ∧ carries "PAVWindow" e.aliasName = true ∧
      carries "YA" e.aliasName = false ∧ carries "PEAVWindow" e.aliasName = false) := by
  decide

/-- In the 64-bit configuration of VC++ 2015 and in the 32-bit configuration the
decorated names are the ones a consumer of that configuration imports, with the
markers of that configuration. -/
theorem exportTable_other_configurations_match :
    (entriesOf ⟨true, 1900⟩).map ExportAlias.aliasName =
      [importedName true MsgBoxNarrow, importedName true MsgBoxWide] ∧
    (entriesOf ⟨false, 1900⟩).map ExportAlias.aliasName =
      [importedName false MsgBoxNarrow, importedName false MsgBoxWide] ∧
    (∀ e ∈ entriesOf ⟨true, 1900⟩,
      carries "YA" e.aliasName = true ∧ carries "PEAVWindow" e.aliasName = true ∧
      carries "YG" e.aliasName = false) ∧
    (∀ e ∈ entriesOf ⟨false, 1900⟩,
      carries "YG" e.aliasName = true ∧ carries "PAVWindow" e.aliasName = true ∧
      carries "YA" e.aliasName = false) := by
  decide

/-- C10: in every supported build configuration the table is defined, every
entry encodes the narrow or the wide overload, an entry encoding the narrow
overload targets the ANSI entry point and one encoding the wide overload targets
the wide entry point, both kinds occur, the two targets differ, and the 32-bit
targets are `_MessageBoxA@16` and `_MessageBoxW@16` with 16 = 4 bytes times the
4 declared parameters. -/
theorem exportTable_targets_match_overloads (cfg : BuildConfig) (h : supported cfg) :
    (∃ entries, exportTable cfg = .ok entries ∧
      (∀ e ∈ entries,
        (encodesNarrow e.aliasName = true ∨ encodesWide e.aliasName = true) ∧
        (encodesNarrow e.aliasName = true → e.name = ansiTarget cfg._WIN64) ∧
        (encodesWide e.aliasName = true → e.name = wideTarget cfg._WIN64)) ∧
      (∃ e ∈ entries, encodesNarrow e.aliasName = true) ∧
      (∃ e ∈ entries, encodesWide e.aliasName = true)) ∧
    ansiTarget cfg._WIN64 ≠ wideTarget cfg._WIN64 ∧
    ansiTarget false = "_MessageBoxA@16" ∧
    wideTarget false = "_MessageBoxW@16" ∧
    (MsgBoxNarrow.map stackBytes32).sum = 4 * MsgBoxNarrow.length ∧
    (MsgBoxWide.map stackBytes32).sum = 4 * MsgBoxWide.length ∧
    4 * MsgBoxNarrow.length = 16 ∧ 4 * MsgBoxWide.length = 16 := by
  obtain ⟨w64, ver⟩ := cfg
  refine ⟨?_, ?_, by decide, by decide, by decide, by decide, by decide, by decide⟩
  · cases w64
    · exact ⟨_, rfl, by dsimp only; decide, by decide, by decide⟩
    · by_cases h19 : ver = 1900
      · subst h19
        exact ⟨_, rfl, by decide, by decide, by decide⟩
      · by_cases h18 : ver = 1800
        · subst h18
          exact ⟨_, rfl, by decide, by decide, by decide⟩
        · exfalso
          rcases h with h | h | h
          · exact Bool.noConfusion h
          · exact h19 h
          · exact h18 h
  · cases w64 <;> dsimp only <;> decide

/-- C10 at the 32-bit configuration. -/
theorem exportTable_targets_match_overloads_witness :
    ∃ entries, exportTable ⟨false, 1800⟩ = .ok entries ∧
      (∀ e ∈ entries,
        (encodesNarrow e.aliasName = true ∨ encodesWide e.aliasName = true) ∧
        (encodesNarrow e.aliasName = true → e.name = ansiTarget false) ∧
        (encodesWide e.aliasName = true → e.name = wideTarget false)) ∧
      (∃ e ∈ entries, encodesNarrow e.aliasName = true) ∧
      (∃ e ∈ entries, encodesWide e.aliasName = true) :=
  (exportTable_targets_match_overloads ⟨false, 1800⟩ (by decide)).1

end msgbox
